import Mathlib

/-!
Shallow embedding of the zmk-paging status-indication pipeline:
the state coordinator (`calculate_system_state`), the LED pattern
driver (`led_controller.c`) and the charging monitor sampler
(`charging_monitor.c`): `should_process_state_change`,
`calculate_polling_interval` and the polling work handler.

Mutable C structs are modelled as Lean structures threaded through
pure step functions; side effects (actuator writes, work-queue
scheduling, callback submission) are modelled as emitted action lists.
-/

namespace ZmkPaging

/-- `charging_state_t` from charging_monitor.h:
CHARGING_STATE_CHARGING, CHARGING_STATE_FULL, CHARGING_STATE_ERROR. -/
inductive ChargingState
  | charging
  | full
  | error
  deriving DecidableEq, Repr

/-- `bluetooth_state_t` from bluetooth_monitor.h:
BLUETOOTH_STATE_DISCONNECTED, BLUETOOTH_STATE_CONNECTED,
BLUETOOTH_STATE_ERROR. -/
inductive BluetoothState
  | disconnected
  | connected
  | error
  deriving DecidableEq, Repr

/-- `system_led_state_t` from state_coordinator.h. -/
inductive SystemLedState
  | off
  | charging
  | fullCharge
  | btConnected
  | btDisconnected
  | error
  deriving DecidableEq, Repr

/-- `led_mode_t` from state_coordinator.h. -/
inductive LedMode
  | off
  | on
  | blinkSlow
  | blinkFast
  | pulse
  deriving DecidableEq, Repr

/-- The `(system_state, led_mode, blink_interval_ms)` triple the
coordinator writes into `struct state_coordinator_data`. -/
structure CoordinatorOut where
  system_state : SystemLedState
  led_mode : LedMode
  blink_interval_ms : Nat
  deriving DecidableEq, Repr

/-- The `use_bluetooth_state` tail of `calculate_system_state`
(state_coordinator.c): the fall-through to the bluetooth domain.
`cfgBlinkIntervalMs` stands for `CONFIG_BLUETOOTH_LED_BLINK_INTERVAL`. -/
def use_bluetooth_state (bt : BluetoothState) (cfgBlinkIntervalMs : Nat) :
    CoordinatorOut :=
  match bt with
  | .connected => ⟨.btConnected, .off, 0⟩
  | .disconnected => ⟨.btDisconnected, .blinkSlow, cfgBlinkIntervalMs⟩
  | .error => ⟨.error, .blinkFast, 250⟩

/-- `calculate_system_state` (state_coordinator.c): in the C source it
mutates `data` in place, but every branch assigns all three output
fields, so it is a pure function of the priority flag, the two input
states and the configured blink interval. -/
def calculate_system_state (chargingHasPriority : Bool)
    (cs : ChargingState) (bt : BluetoothState)
    (cfgBlinkIntervalMs : Nat) : CoordinatorOut :=
  if chargingHasPriority then
    match cs with
    | .charging => ⟨.charging, .on, 0⟩
    | .full => ⟨.fullCharge, .off, 0⟩
    | .error => use_bluetooth_state bt cfgBlinkIntervalMs
  else
    use_bluetooth_state bt cfgBlinkIntervalMs



/-! ### Pattern driver: led_controller.c

`struct led_controller_data` is modelled as `LedData`; the single
`k_work_delayable blink_work` slot is modelled by the `pending` field
(the delay of the currently scheduled toggle, if any:
`k_work_reschedule` replaces it, `k_work_cancel_delayable` clears it).
Side effects of each C function are collected as a list of actions, in
program order. -/

/-- Externally visible effects of the LED controller:
`zmk_backlight_on`/`zmk_backlight_off` actuator writes,
`k_work_cancel_delayable` and `k_work_reschedule` on the blink work. -/
inductive LedAction
  | backlightOn
  | backlightOff
  | cancelWork
  | schedule (ms : Nat)
  deriving DecidableEq, Repr

/-- `struct led_controller_data` (led_controller.c). -/
structure LedData where
  current_state : SystemLedState
  current_mode : LedMode
  blink_interval_ms : Nat
  led_on : Bool
  initialized : Bool
  blinking_active : Bool
  blink_counter : Nat
  /-- the pending delay of `blink_work`, if scheduled -/
  pending : Option Nat
  deriving DecidableEq, Repr

/-- `blink_work_handler` (led_controller.c): runs when the scheduled
blink work fires; bails out if blinking is no longer active, otherwise
toggles the backlight and reschedules itself a full
`blink_interval_ms` later. -/
def blink_work_handler (d : LedData) : LedData × List LedAction :=
  let d := { d with pending := none }
  if d.blinking_active = false then
    (d, [])
  else
    let d := { d with led_on := !d.led_on,
                      blink_counter := d.blink_counter + 1 }
    let writes : List LedAction :=
      if d.led_on then [.backlightOn] else [.backlightOff]
    if d.blinking_active then
      ({ d with pending := some d.blink_interval_ms },
        writes ++ [.schedule d.blink_interval_ms])
    else
      (d, writes)

/-- `stop_blinking` (led_controller.c): cancels the pending blink work
and resets the blink bookkeeping, only when a cycle is active. -/
def stop_blinking (d : LedData) : LedData × List LedAction :=
  if d.blinking_active then
    ({ d with pending := none, blinking_active := false,
              blink_counter := 0, led_on := false },
      [.cancelWork])
  else
    (d, [])

/-- `start_blinking` (led_controller.c): rejects a zero interval;
otherwise stops any existing cycle, records the interval, drives the
backlight on immediately and schedules the first toggle after
`interval_ms / 2`. -/
def start_blinking (d : LedData) (interval_ms : Nat) :
    LedData × List LedAction :=
  if interval_ms = 0 then
    (d, [])
  else
    let r := stop_blinking d
    let d := { r.1 with blink_interval_ms := interval_ms,
                        blinking_active := true, blink_counter := 0,
                        led_on := true,
                        pending := some (interval_ms / 2) }
    (d, r.2 ++ [.backlightOn, .schedule (interval_ms / 2)])

/-- `led_controller_set_state` (led_controller.c): the only entry point
of the pattern driver. No-op when uninitialized or when both the target
state and the mode are unchanged; otherwise records the new state/mode
and dispatches on the mode. -/
def led_controller_set_state (d : LedData) (state : SystemLedState)
    (mode : LedMode) (interval_ms : Nat) : LedData × List LedAction :=
  if d.initialized = false then
    (d, [])
  else if state = d.current_state ∧ mode = d.current_mode then
    (d, [])
  else
    let d := { d with current_state := state, current_mode := mode }
    match mode with
    | .off =>
        let r := stop_blinking d
        ({ r.1 with led_on := false }, r.2 ++ [.backlightOff])
    | .on =>
        let r := stop_blinking d
        ({ r.1 with led_on := true }, r.2 ++ [.backlightOn])
    | .blinkSlow => start_blinking d interval_ms
    | .blinkFast => start_blinking d interval_ms
    | .pulse => start_blinking d (interval_ms / 2)

/-- `led_controller_stop_all` (led_controller.c). -/
def led_controller_stop_all (d : LedData) : LedData × List LedAction :=
  if d.initialized = false then
    (d, [])
  else
    let r := stop_blinking d
    ({ r.1 with current_state := .off, current_mode := .off,
                led_on := false },
      r.2 ++ [.backlightOff])

/-- Iterated firings of the blink work handler (state part only). -/
def blinkIter (d : LedData) : Nat → LedData
  | 0 => d
  | n + 1 => (blink_work_handler (blinkIter d n)).1



/-! ### Signal sampler: charging_monitor.c

Constants and logic from the charging monitor (the hard-coded variant
cited by the claims). Timestamps (`k_uptime_get`) are modelled as
`Int` milliseconds. -/

def POLL_INTERVAL_CHARGING_MS : Nat := 2000
def POLL_INTERVAL_FULL_MS : Nat := 10000
def POLL_INTERVAL_ERROR_MS : Nat := 30000
def POLL_INTERVAL_INTERRUPT_MS : Nat := 30000
def IDLE_TIMEOUT_MS : Int := 30000
def IDLE_MULTIPLIER : Nat := 2
def MAX_CONSECUTIVE_ERRORS : Nat := 5
def DEBOUNCE_TIME_MS : Int := 1000

/-- `enum work_mode` (charging_monitor.c). -/
inductive WorkMode
  | polling
  | interrupt
  | error
  deriving DecidableEq, Repr

/-- The fields of `struct charging_monitor_data` relevant to the
sampling logic (GPIO handles and work-queue items are modelled by the
step functions themselves). -/
structure MonitorData where
  current_state : ChargingState
  consecutive_errors : Nat
  last_activity_time : Int
  last_state_change_time : Int
  initialized : Bool
  polling_active : Bool
  system_idle : Bool
  interrupt_enabled : Bool
  in_interrupt : Bool
  mode : WorkMode
  deriving DecidableEq, Repr

/-- Effects emitted by the status-check work handler:
callback submission (publishing a `ChargingState` to the observer),
`k_work_reschedule` of the next check, and
`gpio_pin_interrupt_configure(..., GPIO_INT_DISABLE)`. -/
inductive MonitorEvent
  | publish (s : ChargingState)
  | reschedule (ms : Nat)
  | disableInterrupt
  deriving DecidableEq, Repr

/-- `should_process_state_change` (charging_monitor.c): error states
bypass the window; otherwise at least `DEBOUNCE_TIME_MS` must have
elapsed since the last accepted state change (half that when the check
was triggered by an interrupt). -/
def should_process_state_change (d : MonitorData)
    (new_state : ChargingState) (now : Int) : Bool :=
  if new_state = .error ∨ d.current_state = .error then
    true
  else if d.in_interrupt then
    if now - d.last_state_change_time < DEBOUNCE_TIME_MS / 2 then
      false
    else
      true
  else if now - d.last_state_change_time < DEBOUNCE_TIME_MS then
    false
  else
    true

/-- `calculate_polling_interval` (charging_monitor.c): base interval by
work mode and state, capped error backoff, then the idle multiplier. -/
def calculate_polling_interval (d : MonitorData) (state : ChargingState)
    (system_idle : Bool) : Nat :=
  let base_interval :=
    match d.mode with
    | .interrupt => POLL_INTERVAL_INTERRUPT_MS
    | .polling | .error =>
      match state with
      | .charging => POLL_INTERVAL_CHARGING_MS
      | .full => POLL_INTERVAL_FULL_MS
      | .error =>
        let b := POLL_INTERVAL_ERROR_MS * (1 + d.consecutive_errors / 2)
        if b > 120000 then 120000 else b
  if system_idle && state ≠ .charging then
    base_interval * IDLE_MULTIPLIER
  else
    base_interval

/-- `check_system_idle` (charging_monitor.c). -/
def check_system_idle (d : MonitorData) (now : Int) : MonitorData × Bool :=
  let is_idle := now - d.last_activity_time > IDLE_TIMEOUT_MS
  ({ d with system_idle := is_idle }, is_idle)

/-- `status_check_work_handler` (charging_monitor.c): one firing of the
status-check work. `pin_state` is the raw `gpio_pin_get` result
(negative = I/O error, otherwise the pin level). The emitted event list
is the handler's side effects in program order. -/
def status_check_step (d : MonitorData) (now : Int) (pin_state : Int) :
    MonitorData × List MonitorEvent :=
  if d.initialized = false then
    (d, [.reschedule POLL_INTERVAL_ERROR_MS])
  else if d.polling_active = false then
    (d, [])
  else
    let r := check_system_idle d now
    let d := r.1
    let system_idle := r.2
    if pin_state < 0 then
      let fb :=
        if d.mode = .interrupt then
          ({ d with interrupt_enabled := false, mode := .polling },
            [MonitorEvent.disableInterrupt])
        else
          (d, ([] : List MonitorEvent))
      let d := fb.1
      let d := { d with consecutive_errors :=
        if d.consecutive_errors < MAX_CONSECUTIVE_ERRORS then
          d.consecutive_errors + 1
        else
          d.consecutive_errors }
      let d := { d with current_state := .error }
      let interval := calculate_polling_interval d .error system_idle
      (d, fb.2 ++ [.reschedule interval])
    else
      let d := { d with consecutive_errors := 0 }
      let new_state : ChargingState :=
        if pin_state = 1 then .charging else .full
      let ch :=
        if new_state ≠ d.current_state then
          if should_process_state_change d new_state now then
            ({ d with current_state := new_state,
                      last_state_change_time := now },
              [MonitorEvent.publish new_state])
          else
            (d, ([] : List MonitorEvent))
        else
          (d, ([] : List MonitorEvent))
      let d := ch.1
      let interval := calculate_polling_interval d new_state system_idle
      (d, ch.2 ++ [.reschedule interval])



/-! ### Concrete fixtures used by counterexamples and witnesses -/

/-- The LED controller data right after `led_controller_init`
(state OFF, mode OFF, not blinking, nothing pending). -/
def ledInit : LedData :=
  ⟨.off, .off, 2000, false, true, false, 0, none⟩

/-- A charging monitor that has been initialized, last published a
FULL state at time 0, and is polling with no errors. -/
def monitorFull : MonitorData :=
  ⟨.full, 0, 0, 0, true, true, false, false, false, .polling⟩

/-- A polling charging monitor in the error state with 4 consecutive
errors, considered idle. -/
def monitorErr4 : MonitorData :=
  ⟨.error, 4, 0, 0, true, true, true, false, false, .polling⟩

/-- The spec's mode/interval invariant on a coordinator output,
amended: the static modes (`Off`, `On`) are exactly the ones with a
zero interval. -/
def modeIntervalInvariant (out : CoordinatorOut) : Prop :=
  ((out.led_mode = .off ∨ out.led_mode = .on) ↔
    out.blink_interval_ms = 0) ∧
  ((out.led_mode = .blinkSlow ∨ out.led_mode = .blinkFast ∨
      out.led_mode = .pulse) ↔ 0 < out.blink_interval_ms)

instance (out : CoordinatorOut) : Decidable (modeIntervalInvariant out) := by
  unfold modeIntervalInvariant
  infer_instance

/-! ### Claims about the state coordinator -/

/-- Claim C1: with charging as the higher-priority domain,
`calculate_system_state` returns exactly the spec's policy triple:
Charging gives (Charging, On, 0); Full gives (FullCharge, Off, 0);
charging Error falls through to the bluetooth domain, where Connected
gives (BtConnected, Off, 0), Disconnected gives
(BtDisconnected, BlinkSlow, configured interval), and Error gives
(Error, BlinkFast, 250 ms). -/
theorem C1_coordinator_policy (cfg : Nat) (bt : BluetoothState) :
    calculate_system_state true .charging bt cfg =
      ⟨.charging, .on, 0⟩ ∧
    calculate_system_state true .full bt cfg =
      ⟨.fullCharge, .off, 0⟩ ∧
    calculate_system_state true .error .connected cfg =
      ⟨.btConnected, .off, 0⟩ ∧
    calculate_system_state true .error .disconnected cfg =
      ⟨.btDisconnected, .blinkSlow, cfg⟩ ∧
    calculate_system_state true .error .error cfg =
      ⟨.error, .blinkFast, 250⟩ := by
  cases bt <;> exact ⟨rfl, rfl, rfl, rfl, rfl⟩

/-- Claim C4, counterexample: the Charging input yields mode `On` with
interval 0, so "mode == Off iff intervalMs == 0" fails in the
right-to-left direction at a concrete input. -/
theorem C4_invariant_counterexample :
    (calculate_system_state true .charging .disconnected
        2000).blink_interval_ms = 0 ∧
    (calculate_system_state true .charging .disconnected
        2000).led_mode ≠ .off := by
  decide

/-- Claim C4, amended: every triple the coordinator can produce, under
either priority configuration and a positive configured blink
interval, satisfies: mode is a static mode (`Off` or `On`) iff
intervalMs == 0, and mode is periodic (`BlinkSlow`, `BlinkFast` or
`Pulse`) iff intervalMs > 0. -/
theorem C4_amended_mode_interval_invariant (prio : Bool)
    (cs : ChargingState) (bt : BluetoothState) (cfg : Nat)
    (hcfg : 0 < cfg) :
    modeIntervalInvariant (calculate_system_state prio cs bt cfg) := by
  cases prio <;> cases cs <;> cases bt <;>
    simp [calculate_system_state, use_bluetooth_state,
      modeIntervalInvariant] <;>
    omega

/-- Witness for C4's amended theorem at a concrete input. -/
theorem C4_amended_mode_interval_invariant_witness :
    0 < 2000 ∧
    modeIntervalInvariant
      (calculate_system_state true .error .disconnected 2000) :=
  ⟨by decide,
    C4_amended_mode_interval_invariant true .error .disconnected 2000
      (by decide)⟩

/-- Claim C6: when charging has priority and the charging domain is in
a defined non-Error state (Charging or Full), the bluetooth input never
affects the coordinator's output: recomputations that agree on the
charging input return identical triples for all bluetooth inputs. -/
theorem C6_priority_noninterference (cs : ChargingState)
    (bt1 bt2 : BluetoothState) (cfg : Nat)
    (h : cs = .charging ∨ cs = .full) :
    calculate_system_state true cs bt1 cfg =
      calculate_system_state true cs bt2 cfg := by
  rcases h with h | h <;> subst h <;> rfl

/-- Witness for C6 at a concrete input. -/
theorem C6_priority_noninterference_witness :
    (ChargingState.charging = .charging ∨
      ChargingState.charging = .full) ∧
    calculate_system_state true .charging .connected 2000 =
      calculate_system_state true .charging .error 2000 :=
  ⟨Or.inl rfl,
    C6_priority_noninterference .charging .connected .error 2000
      (Or.inl rfl)⟩

/-! ### Claims about the pattern driver -/

theorem stop_blinking_records (d : LedData) :
    (stop_blinking d).1.current_state = d.current_state ∧
    (stop_blinking d).1.current_mode = d.current_mode ∧
    (stop_blinking d).1.initialized = d.initialized := by
  unfold stop_blinking
  split <;> exact ⟨rfl, rfl, rfl⟩

theorem start_blinking_records (d : LedData) (i : Nat) :
    (start_blinking d i).1.current_state = d.current_state ∧
    (start_blinking d i).1.current_mode = d.current_mode ∧
    (start_blinking d i).1.initialized = d.initialized := by
  unfold start_blinking
  split
  · exact ⟨rfl, rfl, rfl⟩
  · exact stop_blinking_records d

/-- After any initialized `led_controller_set_state` call, the
requested target state and mode are recorded as current and the
controller stays initialized. -/
theorem set_state_records (d : LedData) (s : SystemLedState)
    (m : LedMode) (i : Nat) (h : d.initialized = true) :
    (led_controller_set_state d s m i).1.current_state = s ∧
    (led_controller_set_state d s m i).1.current_mode = m ∧
    (led_controller_set_state d s m i).1.initialized = true := by
  unfold led_controller_set_state
  rw [if_neg (by simp [h])]
  split_ifs with hb
  · exact ⟨hb.1.symm, hb.2.symm, h⟩
  · cases m
    all_goals
      first
        | exact ⟨(stop_blinking_records _).1,
            (stop_blinking_records _).2.1,
            (stop_blinking_records _).2.2.trans h⟩
        | exact ⟨(start_blinking_records _ _).1,
            (start_blinking_records _ _).2.1,
            (start_blinking_records _ _).2.2.trans h⟩

/-- A second `led_controller_set_state` with the same target and mode
hits the no-op branch: no actions, state unchanged. -/
theorem set_state_second_call_noop (d : LedData) (s : SystemLedState)
    (m : LedMode) (i i2 : Nat) (h : d.initialized = true) :
    led_controller_set_state (led_controller_set_state d s m i).1 s m i2 =
      ((led_controller_set_state d s m i).1, []) := by
  obtain ⟨h1, h2, h3⟩ := set_state_records d s m i h
  revert h1 h2 h3
  generalize (led_controller_set_state d s m i).1 = d1
  intro h1 h2 h3
  unfold led_controller_set_state
  simp [h1, h2, h3]

/-- Claim C8: calling `led_controller_set_state` twice in a row with
the same target state and mode makes the second call a no-op: it emits
no actuator write and no timer cancel/schedule, and leaves the driver
state unchanged. -/
theorem C8_set_state_idempotent (d : LedData) (s : SystemLedState)
    (m : LedMode) (i : Nat) (h : d.initialized = true) :
    led_controller_set_state (led_controller_set_state d s m i).1 s m i =
      ((led_controller_set_state d s m i).1, []) :=
  set_state_second_call_noop d s m i i h

/-- Witness for C8 at a concrete input. -/
theorem C8_set_state_idempotent_witness :
    ledInit.initialized = true ∧
    led_controller_set_state
        (led_controller_set_state ledInit .charging .on 0).1
        .charging .on 0 =
      ((led_controller_set_state ledInit .charging .on 0).1, []) :=
  ⟨rfl, C8_set_state_idempotent ledInit .charging .on 0 rfl⟩

/-- Claim C7: a pending scheduled toggle that fires after its cycle was
stopped or superseded (the `blinking_active` flag cleared by
`stop_blinking` via a later `set_state` or `stop_all`) changes nothing:
the handler consumes the work item, performs no actuator write and
schedules nothing. -/
theorem C7_stale_toggle_noop (d : LedData)
    (h : d.blinking_active = false) :
    blink_work_handler d = ({ d with pending := none }, []) := by
  unfold blink_work_handler
  simp [h]

/-- Witness for C7 at a concrete input. -/
theorem C7_stale_toggle_noop_witness :
    ledInit.blinking_active = false ∧
    blink_work_handler ledInit = ({ ledInit with pending := none }, []) :=
  ⟨rfl, C7_stale_toggle_noop ledInit rfl⟩

/-- One firing of the blink work while the cycle is active: the output
toggles and the next toggle is scheduled a full `blink_interval_ms`
later. -/
theorem blink_work_handler_active (d : LedData)
    (h : d.blinking_active = true) :
    blink_work_handler d =
      ({ d with
          pending := some d.blink_interval_ms,
          led_on := !d.led_on,
          blink_counter := d.blink_counter + 1 },
        (if !d.led_on then [LedAction.backlightOn]
          else [LedAction.backlightOff]) ++
          [LedAction.schedule d.blink_interval_ms]) := by
  unfold blink_work_handler
  simp [h]

/-- While nothing resets the cycle, `blinking_active` and the interval
are preserved across blink work firings. -/
theorem blinkIter_active (d : LedData) (h : d.blinking_active = true) :
    ∀ n : Nat, (blinkIter d n).blinking_active = true ∧
      (blinkIter d n).blink_interval_ms = d.blink_interval_ms := by
  intro n
  induction n with
  | zero => exact ⟨h, rfl⟩
  | succ n ih =>
      show (blink_work_handler (blinkIter d n)).1.blinking_active = true ∧
        (blink_work_handler (blinkIter d n)).1.blink_interval_ms =
          d.blink_interval_ms
      rw [blink_work_handler_active _ ih.1]
      exact ⟨ih.1, ih.2⟩

/-- Claim C3, counterexample: starting a blink cycle with interval
1000 ms drives the output on and then schedules the first toggle after
500 ms = T/2, not after T. -/
theorem C3_first_toggle_counterexample :
    (start_blinking ledInit 1000).2 =
      [.backlightOn, .schedule 500] ∧
    (start_blinking ledInit 1000).1.pending = some 500 ∧
    (500 : Nat) ≠ 1000 := by
  decide

/-- Claim C3, amended: when `start_blinking` starts a periodic cycle
with interval T > 0, it immediately drives the output to its on phase
and schedules the first toggle after T / 2; thereafter every fired
toggle flips the output and reschedules a full period T later,
indefinitely, until the cycle is reset. -/
theorem C3_amended_blink_timing (d : LedData) (T : Nat) (hT : 0 < T) :
    (start_blinking d T).1.led_on = true ∧
    LedAction.backlightOn ∈ (start_blinking d T).2 ∧
    (start_blinking d T).1.pending = some (T / 2) ∧
    (∀ n : Nat,
      (blinkIter (start_blinking d T).1 (n + 1)).pending = some T ∧
      (blinkIter (start_blinking d T).1 (n + 1)).led_on =
        !(blinkIter (start_blinking d T).1 n).led_on) := by
  have hT0 : ¬T = 0 := Nat.pos_iff_ne_zero.mp hT
  have hstart : (start_blinking d T).1 =
      { (stop_blinking d).1 with
          blink_interval_ms := T,
          blinking_active := true, blink_counter := 0,
          led_on := true, pending := some (T / 2) } ∧
      (start_blinking d T).2 =
        (stop_blinking d).2 ++ [.backlightOn, .schedule (T / 2)] := by
    unfold start_blinking
    rw [if_neg hT0]
    exact ⟨rfl, rfl⟩
  have hactive : (start_blinking d T).1.blinking_active = true := by
    rw [hstart.1]
  have hintv : (start_blinking d T).1.blink_interval_ms = T := by
    rw [hstart.1]
  refine ⟨by rw [hstart.1], ?_, by rw [hstart.1], ?_⟩
  · rw [hstart.2]
    simp
  · intro n
    have hn := blinkIter_active _ hactive n
    constructor
    · show (blink_work_handler
        (blinkIter (start_blinking d T).1 n)).1.pending = some T
      rw [blink_work_handler_active _ hn.1]
      rw [show (blinkIter (start_blinking d T).1 n).blink_interval_ms
        = T from hn.2.trans hintv]
    · show (blink_work_handler
        (blinkIter (start_blinking d T).1 n)).1.led_on = _
      rw [blink_work_handler_active _ hn.1]

/-- Witness for C3's amended theorem at a concrete input. -/
theorem C3_amended_blink_timing_witness :
    0 < 1000 ∧
    (start_blinking ledInit 1000).1.led_on = true ∧
    (start_blinking ledInit 1000).1.pending = some 500 ∧
    (blinkIter (start_blinking ledInit 1000).1 1).pending = some 1000 :=
  ⟨by decide, (C3_amended_blink_timing ledInit 1000 (by decide)).1,
    (C3_amended_blink_timing ledInit 1000 (by decide)).2.2.1,
    ((C3_amended_blink_timing ledInit 1000 (by decide)).2.2.2 0).1⟩

/-- Claim C10: from an inactive driver, `led_controller_set_state` with
a periodic mode (`BlinkSlow` or `BlinkFast`) and interval 0 rejects the
cycle start: nothing is scheduled, blinking stays inactive and nothing
is pending, yet the requested state and mode are recorded as current,
so an immediately repeated identical call is a no-op. -/
theorem C10_zero_interval_rejected (d : LedData) (s : SystemLedState)
    (m : LedMode) (hinit : d.initialized = true)
    (hact : d.blinking_active = false) (hpend : d.pending = none)
    (hm : m = .blinkSlow ∨ m = .blinkFast) :
    (led_controller_set_state d s m 0).1.blinking_active = false ∧
    (led_controller_set_state d s m 0).1.pending = none ∧
    (∀ ms : Nat,
      LedAction.schedule ms ∉ (led_controller_set_state d s m 0).2) ∧
    (led_controller_set_state d s m 0).1.current_state = s ∧
    (led_controller_set_state d s m 0).1.current_mode = m ∧
    led_controller_set_state (led_controller_set_state d s m 0).1 s m 0 =
      ((led_controller_set_state d s m 0).1, []) := by
  obtain ⟨h1, h2, h3⟩ := set_state_records d s m 0 hinit
  refine ⟨?_, ?_, ?_, h1, h2, set_state_second_call_noop d s m 0 0 hinit⟩
  all_goals
    unfold led_controller_set_state
    rw [if_neg (by simp [hinit])]
    split_ifs with hb
  · exact hact
  · rcases hm with hm | hm <;> subst hm <;>
      · show (start_blinking _ 0).1.blinking_active = false
        unfold start_blinking
        rw [if_pos rfl]
        exact hact
  · exact hpend
  · rcases hm with hm | hm <;> subst hm <;>
      · show (start_blinking _ 0).1.pending = none
        unfold start_blinking
        rw [if_pos rfl]
        exact hpend
  · intro ms
    simp
  · intro ms
    rcases hm with hm | hm <;> subst hm <;>
      · show LedAction.schedule ms ∉ (start_blinking _ 0).2
        unfold start_blinking
        rw [if_pos rfl]
        simp

/-! ### Claims about the signal sampler -/

/-- Claim C2, counterexample: from a monitor whose last published
change was at time 0, a sample of the old value (pin 0, FULL) at
t = 4900 followed by a single glitch sample of the new value (pin 1)
at t = 5000 publishes the CHARGING transition immediately: the new
value had been observed continuously for at most 100 ms, far less than
`DEBOUNCE_TIME_MS` = 1000 ms, yet the transition was published. -/
theorem C2_debounce_counterexample :
    (status_check_step monitorFull 4900 0).2 =
      [.reschedule POLL_INTERVAL_FULL_MS] ∧
    MonitorEvent.publish .charging ∈
      (status_check_step (status_check_step monitorFull 4900 0).1
        5000 1).2 ∧
    (5000 - 4900 : Int) < DEBOUNCE_TIME_MS := by
  decide

/-- Claim C2, amended: the sampler's debounce is a rate limit keyed to
the last accepted state change, not a persistence requirement on the
new value: a transition between non-Error states accepted from a
polling check is published only if at least `DEBOUNCE_TIME_MS` has
elapsed since the previous accepted state change; a single sample of
the new value suffices once that much time has passed. -/
theorem should_process_polling_bound (d : MonitorData)
    (ns : ChargingState) (now : Int) (hint : d.in_interrupt = false)
    (hcur : d.current_state ≠ .error) (hns : ns ≠ .error)
    (h : should_process_state_change d ns now = true) :
    DEBOUNCE_TIME_MS ≤ now - d.last_state_change_time := by
  unfold should_process_state_change at h
  rw [if_neg (by simp [hns, hcur])] at h
  rw [if_neg (by simp [hint])] at h
  split_ifs at h with g
  exact not_lt.mp g

theorem C2_amended_rate_limit (d : MonitorData) (now pin : Int)
    (s : ChargingState)
    (hint : d.in_interrupt = false) (hcur : d.current_state ≠ .error)
    (hpub : MonitorEvent.publish s ∈ (status_check_step d now pin).2) :
    DEBOUNCE_TIME_MS ≤ now - d.last_state_change_time := by
  simp only [status_check_step, check_system_idle] at hpub
  split_ifs at hpub <;>
    first
      | (exfalso; simp_all; done)
      | (rename_i hsp
         exact should_process_polling_bound _ _ now hint hcur
           (by decide) hsp)

/-- Witness for C2's amended theorem at a concrete input. -/
theorem C2_amended_rate_limit_witness :
    monitorFull.in_interrupt = false ∧
    monitorFull.current_state ≠ .error ∧
    MonitorEvent.publish .charging ∈
      (status_check_step monitorFull 5000 1).2 ∧
    DEBOUNCE_TIME_MS ≤ 5000 - monitorFull.last_state_change_time :=
  ⟨rfl, by decide, by decide,
    C2_amended_rate_limit monitorFull 5000 1 .charging rfl (by decide)
      (by decide)⟩

/-- Claim C5: a failed pin read is absorbed by the sampler and turned
into a state value: the published state is forced to Error (so in
particular it is Error whenever the capped consecutive-error counter
has reached its cap), the counter advances up to its cap, a retry is
rescheduled at the backed-off interval, an interrupt-mode sampler
falls back to polling (and a non-interrupt one keeps its mode, so the
fallback happens at most once), and nothing is published to observers:
no raw I/O error ever crosses the sampler boundary. -/
theorem C5_read_error_absorbed (d : MonitorData) (now pin : Int)
    (hinit : d.initialized = true) (hact : d.polling_active = true)
    (hpin : pin < 0)
    (hcnt : d.consecutive_errors ≤ MAX_CONSECUTIVE_ERRORS) :
    (status_check_step d now pin).1.current_state = .error ∧
    (status_check_step d now pin).1.consecutive_errors =
      min (d.consecutive_errors + 1) MAX_CONSECUTIVE_ERRORS ∧
    (d.mode = .interrupt →
      (status_check_step d now pin).1.mode = .polling ∧
      (status_check_step d now pin).1.interrupt_enabled = false) ∧
    (d.mode ≠ .interrupt →
      (status_check_step d now pin).1.mode = d.mode) ∧
    MonitorEvent.reschedule
        (calculate_polling_interval (status_check_step d now pin).1
          .error (status_check_step d now pin).1.system_idle)
      ∈ (status_check_step d now pin).2 ∧
    (∀ s : ChargingState,
      MonitorEvent.publish s ∉ (status_check_step d now pin).2) := by
  simp only [status_check_step, check_system_idle]
  rw [if_neg (by simp [hinit]), if_neg (by simp [hact]),
    if_pos hpin]
  by_cases hmode : d.mode = WorkMode.interrupt <;>
    by_cases hce : d.consecutive_errors < MAX_CONSECUTIVE_ERRORS <;>
    simp_all [MAX_CONSECUTIVE_ERRORS, Nat.min_def] <;>
    split_ifs <;> omega

/-- Witness for C5 at a concrete input. -/
theorem C5_read_error_absorbed_witness :
    monitorFull.initialized = true ∧
    monitorFull.polling_active = true ∧
    ((-5 : Int) < 0) ∧
    monitorFull.consecutive_errors ≤ MAX_CONSECUTIVE_ERRORS ∧
    (status_check_step monitorFull 0 (-5)).1.current_state = .error ∧
    MonitorEvent.publish .charging ∉
      (status_check_step monitorFull 0 (-5)).2 :=
  ⟨rfl, rfl, by decide, by decide,
    (C5_read_error_absorbed monitorFull 0 (-5) rfl rfl (by decide)
      (by decide)).1,
    (C5_read_error_absorbed monitorFull 0 (-5) rfl rfl (by decide)
      (by decide)).2.2.2.2.2 .charging⟩

/-- Witness for C10 at a concrete input. -/
theorem C10_zero_interval_rejected_witness :
    ledInit.initialized = true ∧
    ledInit.blinking_active = false ∧
    ledInit.pending = none ∧
    (LedMode.blinkSlow = .blinkSlow ∨ LedMode.blinkSlow = .blinkFast) ∧
    (led_controller_set_state ledInit .btDisconnected .blinkSlow
      0).1.blinking_active = false ∧
    (led_controller_set_state ledInit .btDisconnected .blinkSlow
      0).1.current_mode = .blinkSlow :=
  ⟨rfl, rfl, rfl, Or.inl rfl,
    (C10_zero_interval_rejected ledInit .btDisconnected .blinkSlow rfl
      rfl rfl (Or.inl rfl)).1,
    (C10_zero_interval_rejected ledInit .btDisconnected .blinkSlow rfl
      rfl rfl (Or.inl rfl)).2.2.2.2.1⟩

/-- Unfolding lemma for `calculate_polling_interval` on a destructured
record, with the named constants reduced to their values. -/
theorem calculate_polling_interval_eq (cs : ChargingState) (ce : Nat)
    (lat lst : Int) (init pa si ie ii : Bool) (md : WorkMode)
    (t : ChargingState) (b : Bool) :
    calculate_polling_interval
        ⟨cs, ce, lat, lst, init, pa, si, ie, ii, md⟩ t b =
      (let base :=
        match md with
        | .interrupt => 30000
        | .polling | .error =>
          match t with
          | .charging => 2000
          | .full => 10000
          | .error =>
            if 30000 * (1 + ce / 2) > 120000 then 120000
            else 30000 * (1 + ce / 2)
      if b && t ≠ .charging then base * 2 else base) := rfl

/-- The interval while actively charging is strictly shorter than any
idle interval of a non-charging state, in every work mode. -/
theorem interval_busy_lt_idle (d : MonitorData) (s : ChargingState)
    (idle : Bool) (hs : s ≠ .charging) :
    calculate_polling_interval d .charging idle <
      calculate_polling_interval d s true := by
  obtain ⟨cs, ce, lat, lst, init, pa, si, ie, ii, md⟩ := d
  rw [calculate_polling_interval_eq, calculate_polling_interval_eq]
  cases md <;> cases s <;> cases idle <;>
    simp only [Bool.false_and, Bool.true_and, Bool.and_self, if_false,
      Bool.false_eq_true, ite_false, ite_true, decide_not, decide_True,
      decide_False, Bool.not_true, Bool.not_false, reduceCtorEq,
      ne_eq] <;>
    first
      | (exact absurd rfl hs)
      | omega
      | (split_ifs <;> omega)

/-- The interval is monotone in the consecutive-error count. -/
theorem interval_mono_errors (d1 d2 : MonitorData)
    (hmode : d1.mode = d2.mode)
    (he : d1.consecutive_errors ≤ d2.consecutive_errors)
    (t : ChargingState) (b : Bool) :
    calculate_polling_interval d1 t b ≤
      calculate_polling_interval d2 t b := by
  obtain ⟨cs, ce, lat, lst, init, pa, si, ie, ii, md⟩ := d1
  obtain ⟨cs2, ce2, lat2, lst2, init2, pa2, si2, ie2, ii2, md2⟩ := d2
  simp only at hmode he
  subst hmode
  rw [calculate_polling_interval_eq, calculate_polling_interval_eq]
  have h2 : ce / 2 ≤ ce2 / 2 := Nat.div_le_div_right he
  cases md <;> cases t <;> cases b <;>
    simp only [Bool.false_and, Bool.true_and, Bool.and_self, if_false,
      Bool.false_eq_true, ite_false, ite_true, decide_not, decide_True,
      decide_False, Bool.not_true, Bool.not_false, reduceCtorEq,
      ne_eq] <;>
    first
      | omega
      | (split_ifs <;> omega)

/-- The base interval (the value whenever the idle multiplier is not
applied) never exceeds 120000 ms. -/
theorem interval_base_bound (d : MonitorData) (t : ChargingState) :
    calculate_polling_interval d t false ≤ 120000 := by
  obtain ⟨cs, ce, lat, lst, init, pa, si, ie, ii, md⟩ := d
  rw [calculate_polling_interval_eq]
  cases md <;> cases t <;>
    simp only [Bool.false_and, Bool.true_and, Bool.and_self, if_false,
      Bool.false_eq_true, ite_false, ite_true, decide_not, decide_True,
      decide_False, Bool.not_true, Bool.not_false, reduceCtorEq,
      ne_eq] <;>
    first
      | omega
      | (split_ifs <;> omega)

/-- With the idle multiplier the interval is bounded by 240000 ms. -/
theorem interval_total_bound (d : MonitorData) (t : ChargingState)
    (b : Bool) :
    calculate_polling_interval d t b ≤ 240000 := by
  obtain ⟨cs, ce, lat, lst, init, pa, si, ie, ii, md⟩ := d
  rw [calculate_polling_interval_eq]
  cases md <;> cases t <;> cases b <;>
    simp only [Bool.false_and, Bool.true_and, Bool.and_self, if_false,
      Bool.false_eq_true, ite_false, ite_true, decide_not, decide_True,
      decide_False, Bool.not_true, Bool.not_false, reduceCtorEq,
      ne_eq] <;>
    first
      | omega
      | (split_ifs <;> omega)

/-- Claim C9, counterexample: with the error-count at 4 (within its cap
of 5), the idle multiplier is applied after the 120 s cap, so an idle
error-state sampler gets a 180000 ms interval, exceeding 120000 ms. -/
theorem C9_interval_cap_counterexample :
    monitorErr4.consecutive_errors ≤ MAX_CONSECUTIVE_ERRORS ∧
    calculate_polling_interval monitorErr4 .error true = 180000 ∧
    120000 < calculate_polling_interval monitorErr4 .error true := by
  decide

/-- Claim C9, amended: for every sampler state, the interval while
actively charging is strictly shorter than any idle non-charging
interval; the interval is monotone in the consecutive-error count; and
the 120000 ms ceiling holds whenever the idle multiplier is not
applied, while with the idle multiplier the interval is bounded by
240000 ms. -/
theorem C9_amended_interval_properties (d1 d2 : MonitorData)
    (s : ChargingState) (idle : Bool)
    (hmode : d1.mode = d2.mode)
    (he : d1.consecutive_errors ≤ d2.consecutive_errors)
    (hs : s ≠ .charging) :
    calculate_polling_interval d1 .charging idle <
      calculate_polling_interval d1 s true ∧
    (∀ t : ChargingState, ∀ b : Bool,
      calculate_polling_interval d1 t b ≤
        calculate_polling_interval d2 t b) ∧
    (∀ t : ChargingState,
      calculate_polling_interval d1 t false ≤ 120000) ∧
    (∀ t : ChargingState, ∀ b : Bool,
      calculate_polling_interval d1 t b ≤ 240000) :=
  ⟨interval_busy_lt_idle d1 s idle hs,
    fun t b => interval_mono_errors d1 d2 hmode he t b,
    fun t => interval_base_bound d1 t,
    fun t b => interval_total_bound d1 t b⟩

/-- Witness for C9's amended theorem at concrete inputs. -/
theorem C9_amended_interval_properties_witness :
    monitorFull.mode = monitorErr4.mode ∧
    monitorFull.consecutive_errors ≤ monitorErr4.consecutive_errors ∧
    ChargingState.full ≠ .charging ∧
    calculate_polling_interval monitorFull .charging true <
      calculate_polling_interval monitorFull .full true ∧
    calculate_polling_interval monitorFull .error true ≤
      calculate_polling_interval monitorErr4 .error true ∧
    calculate_polling_interval monitorFull .error false ≤ 120000 ∧
    calculate_polling_interval monitorFull .error true ≤ 240000 :=
  ⟨rfl, by decide, by decide,
    (C9_amended_interval_properties monitorFull monitorErr4 .full true
      rfl (by decide) (by decide)).1,
    (C9_amended_interval_properties monitorFull monitorErr4 .full true
      rfl (by decide) (by decide)).2.1 .error true,
    (C9_amended_interval_properties monitorFull monitorErr4 .full true
      rfl (by decide) (by decide)).2.2.1 .error,
    (C9_amended_interval_properties monitorFull monitorErr4 .full true
      rfl (by decide) (by decide)).2.2.2 .error true⟩

end ZmkPaging
